import Mathlib

/-!
Shallow embedding of the ChromeGeminiSync backend
(`src/websocket/connection-manager.ts`, `src/pty/terminal-manager.ts`,
`src/mcp/mcp-server.ts`).  Stateful classes become explicit state records,
their methods become state-transforming functions, and the single-threaded
event loop becomes a fold over an explicit list of events.
-/

namespace ChromeGeminiSync

/-- JavaScript `a || b` on an optional string: `undefined` and the empty
string are falsy, every other string is kept. -/
def jsOrStr (v : Option String) (d : String) : String :=
  match v with
  | none => d
  | some s => if s = "" then d else s

/-- JavaScript `a || b` on an optional number: `undefined` and `0` are
falsy, every other number (negatives included) is kept. -/
def jsOrNum (v : Option Int) (d : Int) : Int :=
  match v with
  | none => d
  | some n => if n = 0 then d else n

/-- JavaScript `a || b` on an optional boolean: `undefined` and `false`
are falsy. -/
def jsOrBool (v : Option Bool) (d : Bool) : Bool :=
  match v with
  | none => d
  | some b => if b then b else d

/-! ## Wire types (`src/types/index.ts`) -/

/-- `BrowserContextRequest` minus the constant type tag; `params` is an
opaque payload, carried but never inspected. -/
structure BrowserContextRequest where
  requestId : String
  action : String
  params : Option String
deriving DecidableEq

/-- `BrowserContextResponse` minus the constant type tag; `data` is an
opaque payload, carried but never inspected. -/
structure BrowserContextResponse where
  requestId : String
  success : Bool
  data : Option String
  error : Option String
deriving DecidableEq

/-- The `WebSocketMessage` union, discriminated by its `type` field.
`unrecognized` stands for a well-formed JSON object whose `type` matches
none of the declared kinds. -/
inductive WebSocketMessage where
  | terminalInput (data : String)
  | terminalOutput (data : String)
  | terminalResize (cols rows : Int)
  | browserRequest (req : BrowserContextRequest)
  | browserResponse (resp : BrowserContextResponse)
  | connectionStatus (status : String) (message : Option String)
  | unrecognized (ty : String)
deriving DecidableEq

/-- A raw inbound socket payload: either a string `JSON.parse` rejects
(the `catch` branch of the message handler) or a parsed message. -/
inductive RawInbound where
  | malformed (raw : String)
  | wellFormed (m : WebSocketMessage)
deriving DecidableEq

namespace ConnectionManager

/-- WebSocket readyState values from the `ws` library. -/
def wsCONNECTING : Nat := 0
def wsOPEN : Nat := 1
def wsCLOSING : Nat := 2
def wsCLOSED : Nat := 3

/-- One entry of the hub's client set: the socket's identity plus its
transport readyState (owned by the `ws` library, only read by the hub). -/
structure Client where
  cid : Nat
  readyState : Nat
deriving DecidableEq

/-- How one pending call's promise was completed.  Each entry of
`pendingBrowserRequests` stores both a `resolve` and a `reject` callback;
a settlement records which of the two was invoked, and with what. -/
inductive Settle where
  | resolved (resp : BrowserContextResponse)
  | rejected (err : String)
deriving DecidableEq

def Settle.isResolved : Settle → Bool
  | .resolved _ => true
  | .rejected _ => false

/-- The `ConnectionManager` state.  `pending` holds the keys of the
`pendingBrowserRequests` map; `activeTimers` holds the identifiers whose
`setTimeout` timer has neither fired nor been cancelled by
`clearTimeout`; `settlements` records every promise completion in order;
`sent` records every transport-level send performed by `broadcast`;
`emits` records every `EventEmitter` emission. -/
structure ConnState where
  wssActive : Bool
  nextCid : Nat
  clients : List Client
  pending : List String
  activeTimers : List String
  settlements : List (String × Settle)
  sent : List (Nat × WebSocketMessage)
  emits : List (String × String)
  log : List String
deriving DecidableEq

def ConnState.init : ConnState :=
  { wssActive := false, nextCid := 0, clients := [], pending := [],
    activeTimers := [], settlements := [], sent := [], emits := [], log := [] }

/-- `initialize(server)`: builds the `WebSocketServer` and starts
accepting connections. -/
def initializeServer (s : ConnState) : ConnState :=
  { s with wssActive := true }

/-- The `connection` handler: the new socket (open at that point) is
added to the client set and `clientConnected` is emitted. -/
def onConnection (s : ConnState) : ConnState :=
  { s with clients := s.clients ++ [⟨s.nextCid, wsOPEN⟩],
           nextCid := s.nextCid + 1,
           emits := s.emits ++ [("clientConnected", toString s.nextCid)],
           log := s.log ++ ["New client connected"] }

/-- The per-socket `close` handler: the socket is removed from the client
set and `clientDisconnected` is emitted. -/
def onSocketClose (s : ConnState) (c : Nat) : ConnState :=
  { s with clients := s.clients.filter (fun cl => cl.cid ≠ c),
           emits := s.emits ++ [("clientDisconnected", toString c)],
           log := s.log ++ ["Client disconnected"] }

/-- The per-socket `error` handler: the socket is removed from the client
set. -/
def onSocketError (s : ConnState) (c : Nat) : ConnState :=
  { s with clients := s.clients.filter (fun cl => cl.cid ≠ c),
           log := s.log ++ ["WebSocket error"] }

/-- Models the `ws` transport moving a tracked socket out of the OPEN
state: readyState becomes CLOSING as soon as a closing handshake starts,
inside the library and before the `close` event registered by
`initializeServer` fires and removes the member.  The hub itself never
writes `readyState`; it only reads it in `broadcast`. -/
def transportClosing (s : ConnState) (c : Nat) : ConnState :=
  let upd := fun (cl : Client) =>
    if cl.cid = c then { cl with readyState := wsCLOSING } else cl
  { s with clients := s.clients.map upd }

/-- `broadcast(message)`: serializes once and sends to every client whose
transport is currently OPEN, silently skipping the others. -/
def broadcast (s : ConnState) (m : WebSocketMessage) : ConnState :=
  { s with sent := s.sent ++
      ((s.clients.filter (fun c => c.readyState == wsOPEN)).map (fun c => (c.cid, m))) }

/-- `handleBrowserResponse(response)`: a matching pending entry has its
timer cancelled and is deleted, then its promise is resolved with the
response; an unmatched response is logged and dropped. -/
def handleBrowserResponse (s : ConnState) (resp : BrowserContextResponse) : ConnState :=
  if resp.requestId ∈ s.pending then
    { s with activeTimers := s.activeTimers.erase resp.requestId,
             pending := s.pending.erase resp.requestId,
             settlements := s.settlements ++ [(resp.requestId, Settle.resolved resp)] }
  else
    { s with log := s.log ++ ["Received response for unknown request"] }

/-- The timeout failure produced by the `setTimeout` callback of
`requestBrowserContext`. -/
def timeoutResponse (rid : String) : BrowserContextResponse :=
  { requestId := rid, success := false, data := none, error := some "Request timed out" }

/-- The `setTimeout` callback registered by `requestBrowserContext`: it
deletes the pending entry and resolves the promise with a timeout
failure.  The surrounding guard is the JS timer runtime: a timer that was
cancelled with `clearTimeout`, or already fired, never fires (again). -/
def fireTimeout (s : ConnState) (rid : String) : ConnState :=
  if rid ∈ s.activeTimers then
    { s with activeTimers := s.activeTimers.erase rid,
             pending := s.pending.erase rid,
             settlements := s.settlements ++ [(rid, Settle.resolved (timeoutResponse rid))] }
  else s

/-- `handleMessage(ws, message)`: the switch over the `type`
discriminator.  `terminal:input` and `terminal:resize` are re-emitted on
named channels, `browser:response` is resolved against the pending set,
and every other shape falls to the logging default branch. -/
def handleMessage (s : ConnState) (m : WebSocketMessage) : ConnState :=
  match m with
  | .terminalInput d => { s with emits := s.emits ++ [("terminalInput", d)] }
  | .terminalResize c r =>
      { s with emits := s.emits ++ [("terminalResize", toString c ++ "x" ++ toString r)] }
  | .browserResponse resp => handleBrowserResponse s resp
  | _ => { s with log := s.log ++ ["Unknown message type"] }

/-- The per-socket `message` handler: `JSON.parse` inside `try`, so a
malformed payload lands in the `catch` branch, which only logs; a parsed
message goes to `handleMessage`. -/
def onSocketMessage (s : ConnState) (r : RawInbound) : ConnState :=
  match r with
  | .malformed _ => { s with log := s.log ++ ["Failed to parse message"] }
  | .wellFormed m => handleMessage s m

/-- The immediate failure returned by `requestBrowserContext` when no
client is connected. -/
def noClientResponse : BrowserContextResponse :=
  { requestId := "", success := false, data := none,
    error := some "No browser extension connected" }

/-- `requestBrowserContext(action, params)` up to the point the promise
is returned: with no clients it resolves immediately with
`noClientResponse` and changes nothing; otherwise it registers a timer
and a pending entry under the fresh identifier `rid` and broadcasts the
request envelope.  The second component is the immediate resolution, if
any; `none` means the promise is left pending. -/
def requestBrowserContext (s : ConnState) (action : String) (params : Option String)
    (rid : String) : ConnState × Option BrowserContextResponse :=
  if s.clients.length = 0 then
    (s, some noClientResponse)
  else
    let req : BrowserContextRequest := { requestId := rid, action := action, params := params }
    let s1 := { s with activeTimers := s.activeTimers ++ [rid],
                       pending := s.pending ++ [rid] }
    (broadcast s1 (.browserRequest req), none)

/-- `close()`: closes every member socket and the listener, then clears
the client set and drops the server handle.  The pending map is not
touched. -/
def close (s : ConnState) : ConnState :=
  { s with clients := [], wssActive := false,
           log := s.log ++ ["Connection manager closed"] }

/-! ### Event-loop traces

The hub is single-threaded: timer callbacks and socket message handlers
run one at a time in some interleaving.  A trace is a list of such
events folded over the state. -/

inductive SockEvent where
  | inbound (r : RawInbound)
  | timerExpire (rid : String)
deriving DecidableEq

def stepEvent (s : ConnState) : SockEvent → ConnState
  | .inbound r => onSocketMessage s r
  | .timerExpire rid => fireTimeout s rid

def run (s : ConnState) (evs : List SockEvent) : ConnState :=
  evs.foldl stepEvent s

/-- Does this event settle the call `rid`: a `browser:response` carrying
its identifier, or its own timer expiring. -/
def matchesCall (rid : String) : SockEvent → Bool
  | .inbound (.wellFormed (.browserResponse resp)) => resp.requestId == rid
  | .timerExpire r => r == rid
  | _ => false

/-- Number of times the call `rid` has been settled. -/
def countFor (l : List (String × Settle)) (rid : String) : Nat :=
  (l.filter (fun p => p.1 == rid)).length

def resCountFor (s : ConnState) (rid : String) : Nat :=
  countFor s.settlements rid

/-- Every settlement so far resolved its promise; none rejected it. -/
def allResolved (s : ConnState) : Prop :=
  ∀ p ∈ s.settlements, p.2.isResolved = true

/-- Members whose transport is OPEN, i.e. the ones `broadcast` sends to. -/
def eligibleCount (s : ConnState) : Nat :=
  (s.clients.filter (fun c => c.readyState == wsOPEN)).length

/-- The code invariant relating the timer set and the pending map: an
identifier has an uncancelled, unfired timer exactly while its entry is
pending (both are created together, and both paths that remove one
remove the other). -/
def hubInv (s : ConnState) : Prop :=
  s.activeTimers = s.pending ∧ s.pending.Nodup

/-- The call `rid` is outstanding: its entry is pending and its promise
has not been settled. -/
def callPending (s : ConnState) (rid : String) : Prop :=
  rid ∈ s.pending ∧ resCountFor s rid = 0

/-- The call `rid` is finished: its entry is gone, its timer can no
longer fire, and its promise was settled exactly once. -/
def callSettled (s : ConnState) (rid : String) : Prop :=
  rid ∉ s.pending ∧ rid ∉ s.activeTimers ∧ resCountFor s rid = 1

/-- The hub's own transition relation: everything the event loop can do
to a `ConnState`, plus `transportClosing`, which is the `ws` library
acting on a socket the hub holds. -/
inductive HubStep : ConnState → ConnState → Prop where
  | init (s : ConnState) : HubStep s (initializeServer s)
  | connect (s : ConnState) : HubStep s (onConnection s)
  | sockMsg (s : ConnState) (r : RawInbound) : HubStep s (onSocketMessage s r)
  | sockClose (s : ConnState) (c : Nat) : HubStep s (onSocketClose s c)
  | sockError (s : ConnState) (c : Nat) : HubStep s (onSocketError s c)
  | timer (s : ConnState) (rid : String) : HubStep s (fireTimeout s rid)
  | request (s : ConnState) (a : String) (p : Option String) (rid : String) :
      HubStep s (requestBrowserContext s a p rid).1
  | send (s : ConnState) (m : WebSocketMessage) : HubStep s (broadcast s m)
  | closeAll (s : ConnState) : HubStep s (close s)
  | transport (s : ConnState) (c : Nat) : HubStep s (transportClosing s c)

def Reachable (s : ConnState) : Prop :=
  Relation.ReflTransGen HubStep (initializeServer ConnState.init) s

end ConnectionManager

/-! ## `TerminalManager` (`src/pty/terminal-manager.ts`) -/

namespace TerminalManager

/-- Events emitted through the `EventEmitter` interface. -/
inductive Event where
  | ready
  | data (chunk : String)
  | exit (exitCode : Int) (signal : Option Int)
  | error
deriving DecidableEq

/-- The `TerminalOptions` constructor argument. -/
structure TerminalOptions where
  cols : Option Int := none
  rows : Option Int := none
  cwd : Option String := none
  shell : Option String := none
  env : List (String × String) := []
deriving DecidableEq

/-- The `TerminalManager` state.  `ptyProcess` is the nullable handle to
the live pty; `spawns` records every `pty.spawn` performed, with the
handle it produced and the dimensions passed to it; `ptyWrites`,
`ptyResizes` and `ptyKills` record the calls forwarded to the live
handle. -/
structure State where
  ptyProcess : Option Nat
  cols : Int
  rows : Int
  cwd : String
  shell : String
  env : List (String × String)
  spawns : List (Nat × Int × Int)
  ptyWrites : List (Nat × String)
  ptyResizes : List (Nat × Int × Int)
  ptyKills : List Nat
  events : List Event
  log : List String
deriving DecidableEq

/-- The constructor.  `options.cols || 80` keeps any nonzero number the
caller supplied; `defaultCwd`, `defaultShell` and `baseEnv` stand for the
ambient `process.cwd()`, `getDefaultShell()` and `process.env`.  Env
lookup takes the last binding, matching object-spread override order. -/
def create (opts : TerminalOptions) (defaultCwd defaultShell : String)
    (baseEnv : List (String × String)) : State :=
  { ptyProcess := none,
    cols := jsOrNum opts.cols 80,
    rows := jsOrNum opts.rows 24,
    cwd := jsOrStr opts.cwd defaultCwd,
    shell := jsOrStr opts.shell defaultShell,
    env := baseEnv ++ [("TERM", "xterm-256color"), ("COLORTERM", "truecolor")] ++ opts.env,
    spawns := [], ptyWrites := [], ptyResizes := [], ptyKills := [],
    events := [], log := [] }

/-- `start()`: a no-op with a log notice while a pty is live; otherwise
`pty.spawn` with the stored dimensions.  `spawnOk` is the outcome of the
external spawn: on failure the `catch` branch emits `error` and the
handle stays null. -/
def start (s : State) (spawnOk : Bool) : State :=
  if s.ptyProcess.isSome then
    { s with log := s.log ++ ["PTY already running"] }
  else if spawnOk then
    { s with ptyProcess := some s.spawns.length,
             spawns := s.spawns ++ [(s.spawns.length, s.cols, s.rows)],
             events := s.events ++ [Event.ready],
             log := s.log ++ ["PTY process started successfully"] }
  else
    { s with events := s.events ++ [Event.error],
             log := s.log ++ ["Failed to start PTY"] }

/-- The `onExit` handler installed by `start`: clears the handle and
emits `exit`. -/
def onPtyExit (s : State) (exitCode : Int) (signal : Option Int) : State :=
  { s with ptyProcess := none,
           events := s.events ++ [Event.exit exitCode signal],
           log := s.log ++ ["PTY exited"] }

/-- `write(data)`: forwarded to the live pty, or a warning while idle
(the input is dropped, not queued). -/
def write (s : State) (data : String) : State :=
  match s.ptyProcess with
  | some h => { s with ptyWrites := s.ptyWrites ++ [(h, data)] }
  | none => { s with log := s.log ++ ["Cannot write, PTY not running"] }

/-- `resize(cols, rows)`: stores the dimensions and propagates them to
the live pty, but only when both are positive; otherwise nothing
happens. -/
def resize (s : State) (cols rows : Int) : State :=
  if 0 < cols ∧ 0 < rows then
    match s.ptyProcess with
    | some h =>
        { s with cols := cols, rows := rows,
                 ptyResizes := s.ptyResizes ++ [(h, cols, rows)],
                 log := s.log ++ ["Resized"] }
    | none => { s with cols := cols, rows := rows }
  else s

/-- `kill()`: kills the live pty and clears the handle; a no-op while
idle. -/
def kill (s : State) : State :=
  match s.ptyProcess with
  | some h =>
      { s with ptyKills := s.ptyKills ++ [h], ptyProcess := none,
               log := s.log ++ ["Killing PTY process"] }
  | none => s

/-- Both stored dimensions are positive. -/
def dimsPositive (s : State) : Prop := 0 < s.cols ∧ 0 < s.rows

end TerminalManager

/-! ## Tool gateway parameter normalization (`src/mcp/mcp-server.ts`)

Each tool handler builds the body of its single `requestBrowserContext`
HTTP call from the caller-supplied parameters, substituting a default for
each missing optional field with the `||` operator. -/

namespace McpServer

structure GetDomParams where
  selector : Option String := none
  includeStyles : Option Bool := none
deriving DecidableEq

structure GetDomCallBody where
  selector : String
  includeStyles : Bool
deriving DecidableEq

/-- The one correlator call issued by the `get_browser_dom` handler:
action name and normalized body. -/
def getDomCall (p : GetDomParams) : String × GetDomCallBody :=
  ("getDom",
   { selector := jsOrStr p.selector "body",
     includeStyles := jsOrBool p.includeStyles false })

structure ModifyDomParams where
  selector : String
  action : String
  value : Option String := none
  attributeName : Option String := none
  all : Option Bool := none
deriving DecidableEq

structure ModifyDomCallBody where
  selector : String
  action : String
  value : Option String
  attributeName : Option String
  all : Bool
deriving DecidableEq

/-- The one correlator call issued by the `modify_dom` handler:
`selector`, `action`, `value` and `attributeName` pass through,
`all` defaults to false (first match only). -/
def modifyDomCall (p : ModifyDomParams) : String × ModifyDomCallBody :=
  ("modifyDom",
   { selector := p.selector, action := p.action, value := p.value,
     attributeName := p.attributeName, all := jsOrBool p.all false })

structure GetConsoleLogsParams where
  level : Option String := none
  clear : Option Bool := none
deriving DecidableEq

structure GetConsoleLogsCallBody where
  level : String
  clear : Bool
deriving DecidableEq

/-- The one correlator call issued by the `get_console_logs` handler:
`level` defaults to "all", `clear` to false. -/
def getConsoleLogsCall (p : GetConsoleLogsParams) : String × GetConsoleLogsCallBody :=
  ("getConsoleLogs",
   { level := jsOrStr p.level "all", clear := jsOrBool p.clear false })

end McpServer

open ConnectionManager TerminalManager McpServer

/-! ## Concrete example states -/

/-- A hub state with one connected client and one pending call, used to
evaluate `close`. -/
def closeExampleState : ConnState :=
  { wssActive := true, nextCid := 1, clients := [⟨0, wsOPEN⟩],
    pending := ["r1"], activeTimers := ["r1"], settlements := [],
    sent := [], emits := [], log := [] }

/-- A reachable hub state: one client connected, whose transport has
started a closing handshake (readyState CLOSING) but whose close event
has not yet fired, so it is still a member. -/
def closingMemberState : ConnState :=
  transportClosing (onConnection (initializeServer ConnState.init)) 0

/-- Constructor options carrying a negative column count. -/
def negativeColsOptions : TerminalOptions := { cols := some (-3) }

/-- A hub state with one connected client and the single call "r1"
pending with a live timer. -/
def pendingCallState : ConnState :=
  { wssActive := true, nextCid := 1, clients := [⟨0, wsOPEN⟩],
    pending := ["r1"], activeTimers := ["r1"], settlements := [],
    sent := [], emits := [], log := [] }

/-- A trace in which the timer of "r1" expires and a late matching reply
arrives afterwards. -/
def timeoutThenLateReplyTrace : List SockEvent :=
  [SockEvent.timerExpire "r1",
   SockEvent.inbound (.wellFormed (.browserResponse
     { requestId := "r1", success := true, data := some "late", error := none }))]

/-! ## Theorems -/

/-- C1: a call issued while the membership set is empty resolves
immediately with a failure whose error is "No browser extension
connected"; the state is returned untouched, so no broadcast is sent, no
timer is started, and no pending entry is created. -/
theorem requestBrowserContext_empty_membership
    (s : ConnState) (a : String) (p : Option String) (rid : String)
    (h : s.clients = []) :
    ConnectionManager.requestBrowserContext s a p rid =
      (s, some { requestId := "", success := false, data := none,
                 error := some "No browser extension connected" }) := by
  simp [ConnectionManager.requestBrowserContext, h, noClientResponse]

theorem requestBrowserContext_empty_membership_witness :
    ConnectionManager.requestBrowserContext ConnState.init "screenshot" none "r1" =
      (ConnState.init,
       some { requestId := "", success := false, data := none,
              error := some "No browser extension connected" }) :=
  requestBrowserContext_empty_membership ConnState.init "screenshot" none "r1" rfl

/-- C4 counterexample: `close()` empties the membership set and releases
the listener, but a call pending at close time is still in the pending
map immediately after `close()` returns — the hub does not hold "no
pending calls". -/
theorem close_keeps_pending_counterexample :
    (ConnectionManager.close closeExampleState).clients = [] ∧
    (ConnectionManager.close closeExampleState).wssActive = false ∧
    (ConnectionManager.close closeExampleState).pending = ["r1"] ∧
    (ConnectionManager.close closeExampleState).pending ≠ [] := by
  refine ⟨rfl, rfl, rfl, ?_⟩
  decide

/-- C4 amended: immediately after `close()` returns, the membership set
is empty and the listener is released, but the pending-call map and its
timers are exactly what they were before the call — pending calls are
left to their timers. -/
theorem close_clears_members_not_pending (s : ConnState) :
    (ConnectionManager.close s).clients = [] ∧
    (ConnectionManager.close s).wssActive = false ∧
    (ConnectionManager.close s).pending = s.pending ∧
    (ConnectionManager.close s).activeTimers = s.activeTimers ∧
    (ConnectionManager.close s).settlements = s.settlements :=
  ⟨rfl, rfl, rfl, rfl, rfl⟩

/-- C5 counterexample: a reachable state in which the membership set has
one member but zero members are eligible for a broadcast (the one
tracked transport is no longer OPEN), so membership size and
broadcast-eligible count differ. -/
theorem membership_eq_eligible_counterexample :
    Reachable closingMemberState ∧
    closingMemberState.clients.length = 1 ∧
    eligibleCount closingMemberState = 0 ∧
    closingMemberState.clients.length ≠ eligibleCount closingMemberState := by
  refine ⟨?_, by decide, by decide, by decide⟩
  exact Relation.ReflTransGen.tail
    (Relation.ReflTransGen.single (HubStep.connect _)) (HubStep.transport _ 0)

/-- C5 amended: the broadcast-eligible count never exceeds the
membership size, equals it whenever every tracked transport is OPEN, and
a broadcast performs exactly `eligibleCount` sends. -/
theorem broadcast_eligible_bounded (s : ConnState) (m : WebSocketMessage) :
    eligibleCount s ≤ s.clients.length ∧
    ((∀ c ∈ s.clients, c.readyState = wsOPEN) → eligibleCount s = s.clients.length) ∧
    (ConnectionManager.broadcast s m).sent.length = s.sent.length + eligibleCount s := by
  refine ⟨List.length_filter_le _ _, ?_, ?_⟩
  · intro h
    unfold eligibleCount
    rw [List.filter_eq_self.mpr]
    intro c hc
    exact beq_iff_eq.mpr (h c hc)
  · simp [ConnectionManager.broadcast, eligibleCount]

theorem broadcast_eligible_bounded_witness :
    eligibleCount (onConnection (initializeServer ConnState.init)) =
      (onConnection (initializeServer ConnState.init)).clients.length :=
  (broadcast_eligible_bounded (onConnection (initializeServer ConnState.init))
    (.terminalOutput "x")).2.1 (by decide)

/-- C6: a malformed inbound payload and a well-formed payload with an
unrecognized type discriminator are both logged and discarded: the
handler is total (the parse failure is caught), the membership set, the
pending map, the timers, the settlements and the sends are all
unchanged, and only the log grows. -/
theorem malformed_or_unknown_inbound_is_noop (s : ConnState) (raw ty : String) :
    ((onSocketMessage s (.malformed raw)).clients = s.clients ∧
     (onSocketMessage s (.malformed raw)).pending = s.pending ∧
     (onSocketMessage s (.malformed raw)).activeTimers = s.activeTimers ∧
     (onSocketMessage s (.malformed raw)).settlements = s.settlements ∧
     (onSocketMessage s (.malformed raw)).sent = s.sent ∧
     (onSocketMessage s (.malformed raw)).log = s.log ++ ["Failed to parse message"]) ∧
    ((onSocketMessage s (.wellFormed (.unrecognized ty))).clients = s.clients ∧
     (onSocketMessage s (.wellFormed (.unrecognized ty))).pending = s.pending ∧
     (onSocketMessage s (.wellFormed (.unrecognized ty))).activeTimers = s.activeTimers ∧
     (onSocketMessage s (.wellFormed (.unrecognized ty))).settlements = s.settlements ∧
     (onSocketMessage s (.wellFormed (.unrecognized ty))).sent = s.sent ∧
     (onSocketMessage s (.wellFormed (.unrecognized ty))).log = s.log ++ ["Unknown message type"]) := by
  refine ⟨⟨rfl, rfl, rfl, rfl, rfl, rfl⟩, ?_⟩
  simp [onSocketMessage, handleMessage]

/-- C7 counterexample: the constructor keeps any nonzero supplied
dimension, so constructing with `cols = -3` stores `-3` — the stored
dimensions of this manager are not positive. -/
theorem dims_positive_constructor_counterexample :
    (TerminalManager.create negativeColsOptions "/" "/bin/bash" []).cols = -3 ∧
    ¬ dimsPositive (TerminalManager.create negativeColsOptions "/" "/bin/bash" []) := by
  constructor
  · decide
  · intro hpos
    have := hpos.1
    rw [show (TerminalManager.create negativeColsOptions "/" "/bin/bash" []).cols = -3 from by decide] at this
    exact absurd this (by decide)

/-- C7 amended: `resize` with a non-positive argument leaves the stored
dimensions unchanged; `start`, `resize` and `kill` preserve positivity
of the stored dimensions; and the constructor establishes positivity
whenever each supplied dimension is nonnegative (zero and absent fall
back to the defaults 80 and 24) — but a negative supplied dimension is
stored verbatim, so positivity is not established for every
construction. -/
theorem dims_positive_invariant
    (opts : TerminalOptions) (dcwd dshell : String) (benv : List (String × String))
    (s : TerminalManager.State) (ok : Bool) (c r : Int)
    (hc : ∀ n, opts.cols = some n → 0 ≤ n) (hr : ∀ n, opts.rows = some n → 0 ≤ n)
    (hs : dimsPositive s) :
    dimsPositive (TerminalManager.create opts dcwd dshell benv) ∧
    dimsPositive (TerminalManager.start s ok) ∧
    dimsPositive (TerminalManager.resize s c r) ∧
    dimsPositive (TerminalManager.kill s) ∧
    ((c ≤ 0 ∨ r ≤ 0) →
      (TerminalManager.resize s c r).cols = s.cols ∧
      (TerminalManager.resize s c r).rows = s.rows) := by
  have hnum : ∀ (v : Option Int) (d : Int), 0 < d → (∀ n, v = some n → 0 ≤ n) →
      0 < jsOrNum v d := by
    intro v d hd hv
    cases v with
    | none => simpa [jsOrNum] using hd
    | some n =>
        by_cases hn : n = 0
        · simpa [jsOrNum, hn] using hd
        · have : 0 ≤ n := hv n rfl
          simpa [jsOrNum, hn] using lt_of_le_of_ne this (Ne.symm hn)
  refine ⟨⟨hnum _ _ (by decide) hc, hnum _ _ (by decide) hr⟩, ?_, ?_, ?_, ?_⟩
  · unfold TerminalManager.start
    by_cases hp : s.ptyProcess.isSome
    · simpa [hp] using hs
    · cases ok <;> simpa [hp] using hs
  · unfold TerminalManager.resize
    by_cases hcr : 0 < c ∧ 0 < r
    · cases hpty : s.ptyProcess <;> simp [hcr, hpty] <;> exact hcr
    · simpa [hcr] using hs
  · unfold TerminalManager.kill
    cases hpty : s.ptyProcess <;> simpa [hpty] using hs
  · intro hle
    have hcr : ¬ (0 < c ∧ 0 < r) := by
      rcases hle with hle | hle
      · exact fun hcontra => absurd hcontra.1 (not_lt.mpr hle)
      · exact fun hcontra => absurd hcontra.2 (not_lt.mpr hle)
    unfold TerminalManager.resize
    simp [hcr]

theorem dims_positive_invariant_witness :
    dimsPositive (TerminalManager.resize (TerminalManager.create {} "/" "/bin/sh" []) 0 5) ∧
    (TerminalManager.resize (TerminalManager.create {} "/" "/bin/sh" []) 0 5).cols =
      (TerminalManager.create {} "/" "/bin/sh" []).cols := by
  have h := dims_positive_invariant {} "/" "/bin/sh" []
    (TerminalManager.create {} "/" "/bin/sh" []) true 0 5
    (by intro n hn; cases hn) (by intro n hn; cases hn)
    ⟨by decide, by decide⟩
  exact ⟨h.2.2.1, (h.2.2.2.2 (Or.inl (by decide))).1⟩

/-- C8: `start()` on a running session takes the already-running branch:
no second spawn is performed and the handle and dimensions are
unchanged; `write(data)` on an idle session takes the warning branch:
nothing is forwarded to any pty, nothing is queued, and no event is
emitted. -/
theorem start_idempotent_write_idle_noop
    (s₁ s₂ : TerminalManager.State) (h : Nat) (ok : Bool) (d : String)
    (h₁ : s₁.ptyProcess = some h) (h₂ : s₂.ptyProcess = none) :
    (TerminalManager.start s₁ ok).ptyProcess = some h ∧
    (TerminalManager.start s₁ ok).spawns = s₁.spawns ∧
    (TerminalManager.start s₁ ok).cols = s₁.cols ∧
    (TerminalManager.start s₁ ok).rows = s₁.rows ∧
    (TerminalManager.write s₂ d).ptyWrites = s₂.ptyWrites ∧
    (TerminalManager.write s₂ d).ptyProcess = none ∧
    (TerminalManager.write s₂ d).events = s₂.events := by
  have hb : s₁.ptyProcess.isSome = true := by rw [h₁]; rfl
  simp [TerminalManager.start, TerminalManager.write, hb, h₁, h₂]

theorem start_idempotent_write_idle_noop_witness :
    (TerminalManager.start
      { TerminalManager.create {} "/" "/bin/sh" [] with ptyProcess := some 0 } true).spawns =
      ({ TerminalManager.create {} "/" "/bin/sh" [] with ptyProcess := some 0 } :
        TerminalManager.State).spawns ∧
    (TerminalManager.write (TerminalManager.create {} "/" "/bin/sh" []) "ls").ptyWrites =
      (TerminalManager.create {} "/" "/bin/sh" []).ptyWrites := by
  have h := start_idempotent_write_idle_noop
    { TerminalManager.create {} "/" "/bin/sh" [] with ptyProcess := some 0 }
    (TerminalManager.create {} "/" "/bin/sh" []) 0 true "ls" rfl rfl
  exact ⟨h.2.1, h.2.2.2.2.1⟩

/-- C9: each gateway handler substitutes the declared default for a
missing optional parameter in the body of its one correlator call: a
missing selector in get_browser_dom becomes "body", a missing level in
get_console_logs becomes "all", and a missing all flag in modify_dom
becomes false. -/
theorem gateway_missing_params_get_defaults
    (p₁ : GetDomParams) (p₂ : GetConsoleLogsParams) (p₃ : ModifyDomParams)
    (h₁ : p₁.selector = none) (h₂ : p₂.level = none) (h₃ : p₃.all = none) :
    (getDomCall p₁).2.selector = "body" ∧
    (getConsoleLogsCall p₂).2.level = "all" ∧
    (modifyDomCall p₃).2.all = false := by
  simp [getDomCall, getConsoleLogsCall, modifyDomCall, jsOrStr, jsOrBool, h₁, h₂, h₃]

theorem gateway_missing_params_get_defaults_witness :
    (getDomCall {}).2.selector = "body" ∧
    (getConsoleLogsCall {}).2.level = "all" ∧
    (modifyDomCall { selector := "div", action := "setText" }).2.all = false :=
  gateway_missing_params_get_defaults {} {} { selector := "div", action := "setText" }
    rfl rfl rfl

/-! ### Shared correlator trace lemmas -/

theorem countFor_append (l₁ l₂ : List (String × Settle)) (rid : String) :
    countFor (l₁ ++ l₂) rid = countFor l₁ rid + countFor l₂ rid := by
  simp [countFor, List.filter_append]

theorem countFor_single_self (rid : String) (x : Settle) :
    countFor [(rid, x)] rid = 1 := by
  simp [countFor]

theorem countFor_single_ne {rid r : String} (h : ¬ r = rid) (x : Settle) :
    countFor [(r, x)] rid = 0 := by
  simp [countFor, h]

theorem hubInv_handleBrowserResponse {s : ConnState} (resp : BrowserContextResponse)
    (h : hubInv s) : hubInv (handleBrowserResponse s resp) := by
  obtain ⟨ht, hnd⟩ := h
  by_cases hg : resp.requestId ∈ s.pending
  · unfold handleBrowserResponse
    rw [if_pos hg]
    exact ⟨by rw [ht], hnd.erase _⟩
  · unfold handleBrowserResponse
    rw [if_neg hg]
    exact ⟨ht, hnd⟩

theorem hubInv_fireTimeout {s : ConnState} (rid : String)
    (h : hubInv s) : hubInv (fireTimeout s rid) := by
  obtain ⟨ht, hnd⟩ := h
  by_cases hg : rid ∈ s.activeTimers
  · unfold fireTimeout
    rw [if_pos hg]
    exact ⟨by rw [ht], hnd.erase _⟩
  · unfold fireTimeout
    rw [if_neg hg]
    exact ⟨ht, hnd⟩

theorem hubInv_step {s : ConnState} (e : SockEvent) (h : hubInv s) :
    hubInv (stepEvent s e) := by
  cases e with
  | timerExpire rid => exact hubInv_fireTimeout rid h
  | inbound r =>
    cases r with
    | malformed raw => exact h
    | wellFormed m =>
      cases m with
      | browserResponse resp => exact hubInv_handleBrowserResponse resp h
      | terminalInput d => exact h
      | terminalOutput d => exact h
      | terminalResize c r => exact h
      | browserRequest req => exact h
      | connectionStatus st msg => exact h
      | unrecognized ty => exact h

theorem settlements_mem_step {s : ConnState} (e : SockEvent) {p : String × Settle}
    (h : p ∈ s.settlements) : p ∈ (stepEvent s e).settlements := by
  cases e with
  | timerExpire rid =>
    show p ∈ (fireTimeout s rid).settlements
    by_cases hg : rid ∈ s.activeTimers
    · unfold fireTimeout
      rw [if_pos hg]
      exact List.mem_append_left _ h
    · unfold fireTimeout
      rw [if_neg hg]
      exact h
  | inbound r =>
    cases r with
    | malformed raw => exact h
    | wellFormed m =>
      cases m with
      | browserResponse resp =>
        by_cases hg : resp.requestId ∈ s.pending
        · show p ∈ (handleBrowserResponse s resp).settlements
          unfold handleBrowserResponse
          rw [if_pos hg]
          exact List.mem_append_left _ h
        · show p ∈ (handleBrowserResponse s resp).settlements
          unfold handleBrowserResponse
          rw [if_neg hg]
          exact h
      | terminalInput d => exact h
      | terminalOutput d => exact h
      | terminalResize c r => exact h
      | browserRequest req => exact h
      | connectionStatus st msg => exact h
      | unrecognized ty => exact h

theorem settlements_mem_run {s : ConnState} (evs : List SockEvent) {p : String × Settle}
    (h : p ∈ s.settlements) : p ∈ (run s evs).settlements := by
  induction evs generalizing s with
  | nil => exact h
  | cons e tl ih => exact ih (settlements_mem_step e h)

theorem callSettled_handleBrowserResponse {s : ConnState} {rid : String}
    (resp : BrowserContextResponse) (h : callSettled s rid) :
    callSettled (handleBrowserResponse s resp) rid := by
  obtain ⟨hp, ht, hc⟩ := h
  by_cases hg : resp.requestId ∈ s.pending
  · have hne : ¬ resp.requestId = rid := fun he => hp (he ▸ hg)
    unfold handleBrowserResponse
    rw [if_pos hg]
    refine ⟨?_, ?_, ?_⟩
    · exact fun hm => hp (List.mem_of_mem_erase hm)
    · exact fun hm => ht (List.mem_of_mem_erase hm)
    · show countFor (s.settlements ++ [(resp.requestId, Settle.resolved resp)]) rid = 1
      rw [countFor_append, countFor_single_ne hne, Nat.add_zero]
      exact hc
  · unfold handleBrowserResponse
    rw [if_neg hg]
    exact ⟨hp, ht, hc⟩

theorem callSettled_fireTimeout {s : ConnState} {rid : String} (r : String)
    (h : callSettled s rid) : callSettled (fireTimeout s r) rid := by
  obtain ⟨hp, ht, hc⟩ := h
  by_cases hg : r ∈ s.activeTimers
  · have hne : ¬ r = rid := fun he => ht (he ▸ hg)
    unfold fireTimeout
    rw [if_pos hg]
    refine ⟨?_, ?_, ?_⟩
    · exact fun hm => hp (List.mem_of_mem_erase hm)
    · exact fun hm => ht (List.mem_of_mem_erase hm)
    · show countFor (s.settlements ++ [(r, Settle.resolved (timeoutResponse r))]) rid = 1
      rw [countFor_append, countFor_single_ne hne, Nat.add_zero]
      exact hc
  · unfold fireTimeout
    rw [if_neg hg]
    exact ⟨hp, ht, hc⟩

theorem callSettled_step {s : ConnState} {rid : String} (e : SockEvent)
    (h : callSettled s rid) : callSettled (stepEvent s e) rid := by
  cases e with
  | timerExpire r => exact callSettled_fireTimeout r h
  | inbound r =>
    cases r with
    | malformed raw => exact h
    | wellFormed m =>
      cases m with
      | browserResponse resp => exact callSettled_handleBrowserResponse resp h
      | terminalInput d => exact h
      | terminalOutput d => exact h
      | terminalResize c r => exact h
      | browserRequest req => exact h
      | connectionStatus st msg => exact h
      | unrecognized ty => exact h

theorem callSettled_run {s : ConnState} {rid : String} (evs : List SockEvent)
    (h : callSettled s rid) : callSettled (run s evs) rid := by
  induction evs generalizing s with
  | nil => exact h
  | cons e tl ih => exact ih (callSettled_step e h)

theorem callPending_step_nonmatch {s : ConnState} {rid : String} (e : SockEvent)
    (h : callPending s rid) (hm : matchesCall rid e = false) :
    callPending (stepEvent s e) rid := by
  obtain ⟨hp, hc⟩ := h
  cases e with
  | timerExpire r =>
    have hne : ¬ r = rid := by simpa [matchesCall] using hm
    show callPending (fireTimeout s r) rid
    by_cases hg : r ∈ s.activeTimers
    · unfold fireTimeout
      rw [if_pos hg]
      refine ⟨?_, ?_⟩
      · exact (List.mem_erase_of_ne (Ne.symm hne)).mpr hp
      · show countFor (s.settlements ++ [(r, Settle.resolved (timeoutResponse r))]) rid = 0
        rw [countFor_append, countFor_single_ne hne, Nat.add_zero]
        exact hc
    · unfold fireTimeout
      rw [if_neg hg]
      exact ⟨hp, hc⟩
  | inbound r =>
    cases r with
    | malformed raw => exact ⟨hp, hc⟩
    | wellFormed m =>
      cases m with
      | browserResponse resp =>
        have hne : ¬ resp.requestId = rid := by simpa [matchesCall] using hm
        by_cases hg : resp.requestId ∈ s.pending
        · show callPending (handleBrowserResponse s resp) rid
          unfold handleBrowserResponse
          rw [if_pos hg]
          refine ⟨?_, ?_⟩
          · exact (List.mem_erase_of_ne (Ne.symm hne)).mpr hp
          · show countFor (s.settlements ++ [(resp.requestId, Settle.resolved resp)]) rid = 0
            rw [countFor_append, countFor_single_ne hne, Nat.add_zero]
            exact hc
        · show callPending (handleBrowserResponse s resp) rid
          unfold handleBrowserResponse
          rw [if_neg hg]
          exact ⟨hp, hc⟩
      | terminalInput d => exact ⟨hp, hc⟩
      | terminalOutput d => exact ⟨hp, hc⟩
      | terminalResize c r => exact ⟨hp, hc⟩
      | browserRequest req => exact ⟨hp, hc⟩
      | connectionStatus st msg => exact ⟨hp, hc⟩
      | unrecognized ty => exact ⟨hp, hc⟩

theorem callPending_resolve_reply {s : ConnState} (resp : BrowserContextResponse)
    (hinv : hubInv s) (h : callPending s resp.requestId) :
    callSettled (handleBrowserResponse s resp) resp.requestId ∧
    (handleBrowserResponse s resp).settlements =
      s.settlements ++ [(resp.requestId, Settle.resolved resp)] := by
  obtain ⟨ht, hnd⟩ := hinv
  obtain ⟨hp, hc⟩ := h
  have hc' : countFor s.settlements resp.requestId = 0 := hc
  unfold handleBrowserResponse
  rw [if_pos hp]
  refine ⟨⟨?_, ?_, ?_⟩, rfl⟩
  · exact fun hm => absurd ((hnd.mem_erase_iff).mp hm).1 (by simp)
  · intro hm
    rw [ht] at hm
    exact absurd ((hnd.mem_erase_iff).mp hm).1 (by simp)
  · show countFor (s.settlements ++ [(resp.requestId, Settle.resolved resp)]) resp.requestId = 1
    rw [countFor_append, countFor_single_self, hc']

theorem callPending_resolve_timer {s : ConnState} (rid : String)
    (hinv : hubInv s) (h : callPending s rid) :
    callSettled (fireTimeout s rid) rid ∧
    (fireTimeout s rid).settlements =
      s.settlements ++ [(rid, Settle.resolved (timeoutResponse rid))] := by
  obtain ⟨ht, hnd⟩ := hinv
  obtain ⟨hp, hc⟩ := h
  have hc' : countFor s.settlements rid = 0 := hc
  have hg : rid ∈ s.activeTimers := by rw [ht]; exact hp
  unfold fireTimeout
  rw [if_pos hg]
  refine ⟨⟨?_, ?_, ?_⟩, rfl⟩
  · exact fun hm => absurd ((hnd.mem_erase_iff).mp hm).1 (by simp)
  · intro hm
    rw [ht] at hm
    exact absurd ((hnd.mem_erase_iff).mp hm).1 (by simp)
  · show countFor (s.settlements ++ [(rid, Settle.resolved (timeoutResponse rid))]) rid = 1
    rw [countFor_append, countFor_single_self, hc']

theorem allResolved_step {s : ConnState} (e : SockEvent) (h : allResolved s) :
    allResolved (stepEvent s e) := by
  cases e with
  | timerExpire rid =>
    show allResolved (fireTimeout s rid)
    by_cases hg : rid ∈ s.activeTimers
    · unfold fireTimeout
      rw [if_pos hg]
      intro p hm
      rcases List.mem_append.mp hm with hm | hm
      · exact h p hm
      · rw [List.mem_singleton.mp hm]
        rfl
    · unfold fireTimeout
      rw [if_neg hg]
      exact h
  | inbound r =>
    cases r with
    | malformed raw => exact h
    | wellFormed m =>
      cases m with
      | browserResponse resp =>
        by_cases hg : resp.requestId ∈ s.pending
        · show allResolved (handleBrowserResponse s resp)
          unfold handleBrowserResponse
          rw [if_pos hg]
          intro p hm
          rcases List.mem_append.mp hm with hm | hm
          · exact h p hm
          · rw [List.mem_singleton.mp hm]
            rfl
        · show allResolved (handleBrowserResponse s resp)
          unfold handleBrowserResponse
          rw [if_neg hg]
          exact h
      | terminalInput d => exact h
      | terminalOutput d => exact h
      | terminalResize c r => exact h
      | browserRequest req => exact h
      | connectionStatus st msg => exact h
      | unrecognized ty => exact h

theorem allResolved_run {s : ConnState} (evs : List SockEvent) (h : allResolved s) :
    allResolved (run s evs) := by
  induction evs generalizing s with
  | nil => exact h
  | cons e tl ih => exact ih (allResolved_step e h)

theorem allResolved_requestBrowserContext {s : ConnState} (a : String) (p : Option String)
    (rid : String) (h : allResolved s) :
    allResolved (ConnectionManager.requestBrowserContext s a p rid).1 := by
  unfold ConnectionManager.requestBrowserContext
  by_cases hc : s.clients.length = 0
  · rw [if_pos hc]
    exact h
  · rw [if_neg hc]
    exact h

/-! ### Correlator claims -/

/-- C2: along any event-loop trace in which the call `rid` starts
pending and unsettled and its timer expires or a matching reply arrives,
the call is settled exactly once (its settlement count ends at one, and
neither a late reply nor a stray timer event can settle it again), the
pending entry and the timer are gone, and if no matching reply ever
arrives in the trace, the one settlement is the resolution with the
"Request timed out" failure. -/
theorem correlator_terminates_exactly_once
    (s : ConnState) (rid : String) (evs : List SockEvent)
    (hinv : hubInv s) (hp : rid ∈ s.pending) (h0 : resCountFor s rid = 0)
    (hfire : ∃ e ∈ evs, matchesCall rid e = true) :
    resCountFor (run s evs) rid = 1 ∧
    rid ∉ (run s evs).pending ∧
    rid ∉ (run s evs).activeTimers ∧
    ((∀ resp : BrowserContextResponse,
        SockEvent.inbound (RawInbound.wellFormed (WebSocketMessage.browserResponse resp)) ∈ evs →
        ¬ resp.requestId = rid) →
      (rid, Settle.resolved (timeoutResponse rid)) ∈ (run s evs).settlements) := by
  induction evs generalizing s with
  | nil =>
    rcases hfire with ⟨e, he, _⟩
    exact absurd he (List.not_mem_nil e)
  | cons e tl ih =>
    by_cases hme : matchesCall rid e = true
    · cases e with
      | inbound r =>
        cases r with
        | malformed raw => simp [matchesCall] at hme
        | wellFormed m =>
          cases m with
          | browserResponse resp =>
            have hrid : resp.requestId = rid := by simpa [matchesCall] using hme
            subst hrid
            have hres := callPending_resolve_reply resp ⟨hinv.1, hinv.2⟩ ⟨hp, h0⟩
            have hsettled := callSettled_run tl hres.1
            refine ⟨hsettled.2.2, hsettled.1, hsettled.2.1, ?_⟩
            intro hno
            exact absurd rfl (hno resp (List.mem_cons_self _ _))
          | terminalInput d => simp [matchesCall] at hme
          | terminalOutput d => simp [matchesCall] at hme
          | terminalResize c r => simp [matchesCall] at hme
          | browserRequest req => simp [matchesCall] at hme
          | connectionStatus st msg => simp [matchesCall] at hme
          | unrecognized ty => simp [matchesCall] at hme
      | timerExpire r =>
        have hrid : r = rid := by simpa [matchesCall] using hme
        subst hrid
        have hres := callPending_resolve_timer r ⟨hinv.1, hinv.2⟩ ⟨hp, h0⟩
        have hsettled := callSettled_run tl hres.1
        refine ⟨hsettled.2.2, hsettled.1, hsettled.2.1, ?_⟩
        intro _
        have hmem : (r, Settle.resolved (timeoutResponse r)) ∈ (fireTimeout s r).settlements := by
          rw [hres.2]
          exact List.mem_append_right _ (List.mem_singleton_self _)
        exact settlements_mem_run tl hmem
    · have hnext := callPending_step_nonmatch e ⟨hp, h0⟩ (Bool.eq_false_iff.mpr hme)
      have hinv' := hubInv_step e hinv
      have hfire' : ∃ e' ∈ tl, matchesCall rid e' = true := by
        rcases hfire with ⟨e', he', hm'⟩
        rcases List.mem_cons.mp he' with he'' | he''
        · exact absurd (he'' ▸ hm') hme
        · exact ⟨e', he'', hm'⟩
      have hfin := ih (stepEvent s e) hinv' hnext.1 hnext.2 hfire'
      refine ⟨hfin.1, hfin.2.1, hfin.2.2.1, ?_⟩
      intro hno
      exact hfin.2.2.2 (fun resp hm => hno resp (List.mem_cons_of_mem e hm))

theorem correlator_terminates_exactly_once_witness :
    resCountFor (run pendingCallState timeoutThenLateReplyTrace) "r1" = 1 :=
  (correlator_terminates_exactly_once pendingCallState "r1" timeoutThenLateReplyTrace
    ⟨rfl, by decide⟩ (by decide) rfl (by decide)).1

/-- C3: a `browser:response` whose identifier matches a call that is
still pending and unsettled removes the pending entry, cancels the
timer, and resolves the call with the reply itself (success flag and
payload verbatim); the removal happens exactly once — along any
continuation of the trace its settlement count stays at one. -/
theorem correlator_reply_resolves_verbatim
    (s : ConnState) (resp : BrowserContextResponse) (evs : List SockEvent)
    (hinv : hubInv s) (hp : resp.requestId ∈ s.pending)
    (h0 : resCountFor s resp.requestId = 0) :
    (handleBrowserResponse s resp).settlements =
      s.settlements ++ [(resp.requestId, Settle.resolved resp)] ∧
    resp.requestId ∉ (handleBrowserResponse s resp).pending ∧
    resp.requestId ∉ (handleBrowserResponse s resp).activeTimers ∧
    resCountFor (run (handleBrowserResponse s resp) evs) resp.requestId = 1 := by
  have hres := callPending_resolve_reply resp hinv ⟨hp, h0⟩
  have hrun := callSettled_run evs hres.1
  exact ⟨hres.2, hres.1.1, hres.1.2.1, hrun.2.2⟩

theorem correlator_reply_resolves_verbatim_witness :
    (handleBrowserResponse pendingCallState
      { requestId := "r1", success := true, data := some "payload", error := none }).settlements =
      pendingCallState.settlements ++
        [("r1", Settle.resolved
          { requestId := "r1", success := true, data := some "payload", error := none })] :=
  (correlator_reply_resolves_verbatim pendingCallState
    { requestId := "r1", success := true, data := some "payload", error := none } []
    ⟨rfl, by decide⟩ (by decide) rfl).1

/-- C10: `requestBrowserContext` never rejects the promise it returns:
the immediate-resolution path yields the no-client failure response, and
along any event-loop trace every settlement ever recorded (empty
membership, matching reply, or timeout expiry) is a resolution — the
stored reject callback is never invoked. -/
theorem correlator_never_rejects
    (s : ConnState) (a : String) (p : Option String) (rid : String) (evs : List SockEvent)
    (h : allResolved s) :
    (∀ r, (ConnectionManager.requestBrowserContext s a p rid).2 = some r →
        r = noClientResponse) ∧
    allResolved (run (ConnectionManager.requestBrowserContext s a p rid).1 evs) := by
  constructor
  · intro r hr
    unfold ConnectionManager.requestBrowserContext at hr
    by_cases hc : s.clients.length = 0
    · rw [if_pos hc] at hr
      exact (Option.some_inj.mp hr).symm
    · rw [if_neg hc] at hr
      exact absurd hr (by simp)
  · exact allResolved_run evs (allResolved_requestBrowserContext a p rid h)

theorem correlator_never_rejects_witness :
    allResolved (run (ConnectionManager.requestBrowserContext
      ConnState.init "getUrl" none "r9").1 [SockEvent.timerExpire "r9"]) :=
  (correlator_never_rejects ConnState.init "getUrl" none "r9"
    [SockEvent.timerExpire "r9"] (fun _ hq => nomatch hq)).2

end ChromeGeminiSync
